import Mathlib

/-!
Verification of the `Selector` CSS selector engine (src/src/selector.js).

The file shallowly embeds the engine's data model and algorithms in Lean:
JavaScript runtime behaviour that the code relies on (strict-mode
`ReferenceError` for undeclared identifiers, `TypeError` on member access of
`null`/`undefined`, `undefined !== null`, `parseInt` producing `NaN`, the
sign-of-dividend `%` operator with `-0 === 0`) is made explicit, fallible
evaluation is an `Except`, and DOM trees are finite indexed node tables.
-/

namespace Selector

/-- Errors a selector-engine evaluation can surface.  `typeError` and
`referenceError` model the corresponding JavaScript runtime exceptions;
`parseError` is the error class that the repository's specification document
names for malformed selectors (the code itself never constructs it);
`unmodeled` marks pseudo-classes that consult browser state (location, focus,
link history) outside the document-tree model; `outOfFuel` marks exhaustion of
the explicit recursion bound and is never reached by the concrete evaluations
in this file. -/
inductive JsError where
  | typeError (msg : String)
  | referenceError (name : String)
  | parseError (fragment : String)
  | unmodeled (what : String)
  | outOfFuel
deriving DecidableEq, Repr

/-- Result of evaluating a piece of the engine. -/
abbrev JsResult (α : Type) := Except JsError α

/-- A JavaScript property value as the engine observes it: for this engine a
named property of a node is either a string or `undefined` (absent DOM content
attributes surface as `undefined` under plain property access; none of the
modeled properties is ever `null`). -/
inductive JsVal where
  | undefined
  | str (s : String)
deriving DecidableEq, Repr

/-- JavaScript string coercion as used by `+` concatenation and by passing a
value to `indexOf`: `undefined` coerces to the string `"undefined"`. -/
def JsVal.coerceStr : JsVal → String
  | .undefined => "undefined"
  | .str s => s

/-- `v !== null` for a modeled property value: both `undefined` and any string
are strictly unequal to `null`, so the check always passes (this is the latent
flaw in the attribute predicates' absence guards). -/
def JsVal.strictNeqNull : JsVal → Bool
  | _ => true

/-- A JavaScript number restricted to what the engine computes with:
an integer or `NaN`. -/
inductive JNum where
  | nan
  | int (v : Int)
deriving DecidableEq, Repr

/-- `x < y` on JS numbers: any comparison with `NaN` is false. -/
def JNum.lt : JNum → JNum → Bool
  | .int a, .int b => a < b
  | _, _ => false

/-- `x === y` on JS numbers: `NaN === NaN` is false. -/
def JNum.eq : JNum → JNum → Bool
  | .int a, .int b => a == b
  | _, _ => false

/-- `x - y` on JS numbers. -/
def JNum.sub : JNum → JNum → JNum
  | .int a, .int b => .int (a - b)
  | _, _ => .nan

/-- `(x % a) === 0` on JS numbers.  JS `%` takes the sign of the dividend and
yields `NaN` when the divisor is `0` or either side is `NaN`; since
`-0 === 0`, the comparison holds exactly when the divisor is a nonzero integer
dividing the dividend. -/
def JNum.modEqZero : JNum → JNum → Bool
  | .int x, .int a => a ≠ 0 && x % a == 0
  | _, _ => false

/-- JS `parseInt` restricted to base 10 on the strings this engine feeds it:
skip leading whitespace, read an optional sign, then the longest digit prefix;
no digits means `NaN` (e.g. `parseInt("-")` and `parseInt("")` are `NaN`,
`parseInt("+3")` is `3`). -/
def parseIntJs (s : String) : JNum :=
  let cs := s.data.dropWhile (fun c => c = ' ' ∨ c = '\t' ∨ c = '\n' ∨ c = '\r')
  let (sign, cs) :=
    match cs with
    | '-' :: rest => ((-1 : Int), rest)
    | '+' :: rest => ((1 : Int), rest)
    | rest => ((1 : Int), rest)
  let digits := cs.takeWhile Char.isDigit
  if digits.isEmpty then .nan
  else .int (sign * (digits.foldl (fun acc c => acc * 10 + (c.toNat - '0'.toNat)) 0 : Nat))

/-- JS string truthiness: the empty string is falsy. -/
def truthyStr (s : String) : Bool := s ≠ ""

/-- Truthiness of a possibly-`undefined` string (function parameters that may
not have been passed). -/
def truthyOptStr : Option String → Bool
  | none => false
  | some s => s ≠ ""

/-- Coerce a possibly-`undefined` string argument the way JS string
concatenation and `indexOf` arguments do. -/
def jsArgStr : Option String → String
  | none => "undefined"
  | some s => s

/-- Substring search over character lists (structural, so that concrete
evaluations reduce in the kernel). -/
def listContainsSub (pat : List Char) : List Char → Bool
  | [] => pat.isEmpty
  | c :: rest => pat.isPrefixOf (c :: rest) || listContainsSub pat rest

/-- `s.indexOf(pat) !== -1`: substring containment (`indexOf` of the empty
string is `0`). -/
def containsSubstr (s pat : String) : Bool :=
  listContainsSub pat.data s.data

/-- Split a character list at every occurrence of a separator character
(`String.prototype.split` with a one-character separator). -/
def splitOnChar (sep : Char) : List Char → List (List Char)
  | [] => [[]]
  | c :: rest =>
    match splitOnChar sep rest with
    | [] => [[]]
    | piece :: pieces =>
      if c = sep then [] :: piece :: pieces else (c :: piece) :: pieces

/-- Association lookup on a property list (structural `List.lookup`). -/
def lookupProp : List (String × String) → String → Option String
  | [], _ => none
  | (k, v) :: rest, name => if k = name then some v else lookupProp rest name

/-! ## Document model

A document is a finite table of nodes; node references are table indices and
the JS `null` reference is `Option.none`.  Each node carries the structural
links the engine dereferences (`parentNode`, `previousSibling`,
`nextSibling`, `childNodes`) plus `nodeType`, `nodeName` and its named string
properties (`element[attribute]`). -/

/-- One DOM node as the engine observes it. -/
structure DomNode where
  nodeType : Nat
  nodeName : String
  props : List (String × String)
  parent : Option Nat
  prevSib : Option Nat
  nextSib : Option Nat
  children : List Nat
deriving DecidableEq, Repr

instance : Inhabited DomNode := ⟨⟨0, "", [], none, none, none, []⟩⟩

/-- A document: node table plus the index of the `document` node (the node the
code compares against as the ascent sentinel). -/
structure Doc where
  nodes : List DomNode
  docIdx : Nat
deriving Repr

/-- Dereference a node index. -/
def Doc.node (d : Doc) (i : Nat) : DomNode := d.nodes.getD i default

/-- `element[name]` plain property access: a string or `undefined`. -/
def Doc.prop (d : Doc) (i : Nat) (name : String) : JsVal :=
  match lookupProp (d.node i).props name with
  | some s => .str s
  | none => .undefined

/-- `element.id`: the DOM id IDL attribute is the empty string when the
attribute is absent. -/
def Doc.elemId (d : Doc) (i : Nat) : String :=
  match lookupProp (d.node i).props "id" with
  | some s => s
  | none => ""

/-- Member access on a possibly-`null` node reference: accessing any property
of `null` throws a `TypeError`. -/
def derefNode (ref : Option Nat) (what : String) : JsResult Nat :=
  match ref with
  | none => .error (.typeError ("Cannot read properties of null (reading " ++ what ++ ")"))
  | some i => .ok i

/-! ## Parsed selector data model (§3 of the spec) -/

/-- `{attribute, operator, value}` (the `attribute` field is spelled `attrName` here since `attribute` is a Lean keyword) produced by `parseCompoundSelector` for
`[...]` and `.class` simple selectors.  `value` is `undefined` for the bare
presence form `[attr]`. -/
structure AttrSel where
  attrName : String
  operator : String
  value : Option String
deriving DecidableEq, Repr

/-- `{name, parameter}` produced for `:pseudo` simple selectors. -/
structure PseudoSel where
  name : String
  parameter : Option String
deriving DecidableEq, Repr

/-- A parsed compound selector. -/
structure CompoundSel where
  typeSelector : String
  idSelector : String
  attributeSelectors : List AttrSel
  pseudoSelectors : List PseudoSel
deriving DecidableEq, Repr

instance : Inhabited CompoundSel := ⟨⟨"", "", [], []⟩⟩

/-- A parsed complex selector: combinators plus compound selectors. -/
structure ComplexSel where
  combinators : List String
  compoundSelectors : List CompoundSel
deriving DecidableEq, Repr

/-! ## Attribute predicates (`isMatchedByAttributeSelector`, selector.js 158-184)

The source is a table of functions keyed by operator; each receives
`(element, attribute, value)` and reads `element[attribute]`.  Since an absent
property is `undefined` (never `null`), every `attributeValue !== null` guard
passes, after which invoking a string method on `undefined` throws a
`TypeError`. -/

/-- `v.indexOf(arg) === 0` where `v` may be `undefined`: method call on
`undefined` throws, the argument is string-coerced. -/
def jsIndexOfEqZero (v : JsVal) (arg : Option String) : JsResult Bool :=
  match v with
  | .undefined => .error (.typeError "Cannot read properties of undefined (reading indexOf)")
  | .str s => .ok ((jsArgStr arg).data.isPrefixOf s.data)

/-- `v.indexOf(arg) !== -1` where `v` may be `undefined`. -/
def jsIndexOfFound (v : JsVal) (arg : Option String) : JsResult Bool :=
  match v with
  | .undefined => .error (.typeError "Cannot read properties of undefined (reading indexOf)")
  | .str s => .ok (containsSubstr s (jsArgStr arg))

/-- `v.substring(v.length - value.length) === value`: on `undefined` the
`.substring`/`.length` access throws; `value.length` on an `undefined` value
argument also throws.  JS `substring` clamps a negative start to `0`, which
`String.drop`'s truncated subtraction mirrors. -/
def jsSuffixEq (v : JsVal) (arg : Option String) : JsResult Bool :=
  match v with
  | .undefined => .error (.typeError "Cannot read properties of undefined (reading substring)")
  | .str s =>
    match arg with
    | none => .error (.typeError "Cannot read properties of undefined (reading length)")
    | some value =>
      .ok (decide (s.data.drop (s.data.length - value.data.length) = value.data))

/-- The attribute-operator predicate table.  Dispatch on an operator string
outside the table is calling `undefined`, a `TypeError`. -/
def isMatchedByAttributeSelector (d : Doc) (element : Option Nat)
    (operator attrName : String) (value : Option String) : JsResult Bool :=
  match operator with
  | "" => do
    -- return element[attribute] !== null
    let e ← derefNode element attrName
    .ok ((d.prop e attrName).strictNeqNull)
  | "=" => do
    -- return element[attribute] === value  (strict: undefined === undefined holds)
    let e ← derefNode element attrName
    let v := d.prop e attrName
    .ok (match v, value with
         | .str s, some t => decide (s = t)
         | .undefined, none => true
         | _, _ => false)
  | "~=" => do
    -- (" " + element[attribute] + " ").indexOf(" " + value + " ") !== -1
    let e ← derefNode element attrName
    .ok (containsSubstr (" " ++ (d.prop e attrName).coerceStr ++ " ")
          (" " ++ jsArgStr value ++ " "))
  | "^=" => do
    let e ← derefNode element attrName
    let av := d.prop e attrName
    if av.strictNeqNull then jsIndexOfEqZero av value else .ok false
  | "$=" => do
    let e ← derefNode element attrName
    let av := d.prop e attrName
    if av.strictNeqNull then jsSuffixEq av value else .ok false
  | "*=" => do
    let e ← derefNode element attrName
    let av := d.prop e attrName
    if av.strictNeqNull then jsIndexOfFound av value else .ok false
  | "|=" => do
    let e ← derefNode element attrName
    let av := d.prop e attrName
    if av.strictNeqNull then
      -- attributeValue === value || attributeValue.indexOf(value + "-") === 0
      match av, value with
      | .str s, some t => if s = t then .ok true else jsIndexOfEqZero av (some (t ++ "-"))
      | _, _ => jsIndexOfEqZero av (some (jsArgStr value ++ "-"))
    else .ok false
  | _ => .error (.typeError "isMatchedByAttributeSelector[operator] is not a function")

/-! ## An+B counting (`isNthChild`, selector.js 193-248) -/

/-- Walk the sibling chain counting element-type siblings, optionally
filtered by tag name, mirroring the four `while` loops of `isNthChild`. -/
def nthCounter (d : Doc) (reverse : Bool) (tagName : Option String) :
    Nat → Nat → Int → JsResult Int
  | 0, _, _ => .error .outOfFuel
  | fuel + 1, current, counter =>
    let sib := if reverse then (d.node current).nextSib else (d.node current).prevSib
    match sib with
    | none => .ok counter
    | some s =>
      let isCounted :=
        if truthyOptStr tagName then
          (d.node s).nodeType == 1 &&
            (decide (jsArgStr tagName = "*") ||
              decide ((jsArgStr tagName).data.map Char.toLower =
                (d.node s).nodeName.data.map Char.toLower))
        else (d.node s).nodeType == 1
      nthCounter d reverse tagName fuel s (if isCounted then counter + 1 else counter)

/-- `isNthChild(element, parameter, reverse, tagName)`.  `parameter` may be
`undefined` (then `parameter.split` throws); `element` may be `null` (then the
sibling walk's first dereference throws). -/
def isNthChild (d : Doc) (element : Option Nat) (parameter : Option String)
    (reverse : Bool) (tagName : Option String) (fuel : Nat) : JsResult Bool := do
  let param ←
    match parameter with
    | none => .error (.typeError "Cannot read properties of undefined (reading split)")
    | some p => pure p
  let param := if param = "odd" then "2n+1" else if param = "even" then "2n" else param
  if param = "n" then .ok true
  else
    let parameters := (splitOnChar 'n' param.data).map String.mk
    let p0 := parameters.getD 0 ""
    let p1 := parameters.getD 1 ""
    let a := if truthyStr p0 then parseIntJs p0 else .int 0
    let b := if truthyStr p1 then parseIntJs p1 else .int 0
    let e ← derefNode element (if reverse then "nextSibling" else "previousSibling")
    let counter ← nthCounter d reverse tagName fuel e 1
    let c : JNum := .int counter
    .ok ((c.lt a && c.eq b) || (c.sub b).modEqZero a)

/-! ## Normalizer (`parseSelector` pre-processing, selector.js 75-80)

The three `replace` passes are embedded as character scans that follow the
JavaScript regex engine's leftmost-match, ordered-alternation, greedy
backtracking and `/g` empty-match-advance semantics. -/

/-- `match.replace(/\\(.)/g, "$1")`: drop each backslash, keeping the
character it escapes. -/
def unescapeChars : List Char → List Char
  | [] => []
  | '\\' :: c :: rest => c :: unescapeChars rest
  | ['\\'] => ['\\']
  | c :: rest => c :: unescapeChars rest

/-- Scan the body of a quoted string opened with quote `q`, following
`[^q\\]*(?:\\.[^q\\]*)*q`: returns the body (escape pairs kept) and the
remainder after the closing quote, or `none` when the string is unterminated
(the regex then simply does not match at the opening quote). -/
def scanQuoted (q : Char) : List Char → Option (List Char × List Char)
  | [] => none
  | '\\' :: c :: rest =>
    match scanQuoted q rest with
    | some (body, rem) => some ('\\' :: c :: body, rem)
    | none => none
  | ['\\'] => none
  | c :: rest =>
    if c = q then some ([], rest)
    else
      match scanQuoted q rest with
      | some (body, rem) => some (c :: body, rem)
      | none => none

/-- Pass 1 (line 75-77): replace every complete quoted string literal with the
placeholder character `'\x00'` and push its unescaped text (quotes included,
matching the source which unescapes the whole regex match) onto the string
table, in left-to-right order of occurrence. -/
def extractGo : Nat → List Char → List Char × List String
  | 0, cs => (cs, [])
  | fuel + 1, cs =>
    match cs with
    | [] => ([], [])
    | c :: rest =>
      if c = '\'' ∨ c = '"' then
        match scanQuoted c rest with
        | some (body, rem) =>
          let (out, strs) := extractGo fuel rem
          ('\x00' :: out, String.mk (unescapeChars (c :: (body ++ [c]))) :: strs)
        | none =>
          let (out, strs) := extractGo fuel rest
          (c :: out, strs)
      else
        let (out, strs) := extractGo fuel rest
        (c :: out, strs)

/-- Characters matched by `\s` in the selector strings this engine handles. -/
def isWsChar (c : Char) : Bool :=
  c = ' ' ∨ c = '\t' ∨ c = '\n' ∨ c = '\r' ∨ c = '\x0c' ∨ c = '\x0b'

/-- Punctuation accepted by the group `[\s>+~(),]` besides whitespace. -/
def isWsPunct (c : Char) : Bool :=
  c = '>' ∨ c = '+' ∨ c = '~' ∨ c = '(' ∨ c = ')' ∨ c = ','

/-- One match attempt of `/\s*([\s>+~(),]|^|$)\s*/` at the head of `cs`
(`atStart` marks string position 0 for the `^` alternative).  Returns the
captured group (as characters), the number of characters consumed, and the
remainder.  Backtracking order: the greedy leading `\s*` is retried from
longest to shortest, and at each length the alternatives are tried in written
order, so a maximal whitespace run followed by punctuation matches with the
punctuation captured; a run followed by an ordinary character matches with the
run's last whitespace character captured; `$` captures empty at end of input;
`^` captures empty at position 0 when no whitespace is present. -/
def wsMatchAt (cs : List Char) (atStart : Bool) :
    Option (List Char × List Char × List Char) :=
  let ws := cs.takeWhile isWsChar
  let afterWs := cs.dropWhile isWsChar
  match afterWs with
  | [] => some ([], cs, [])
  | c :: rest =>
    if isWsPunct c then
      let ws2 := rest.takeWhile isWsChar
      let rem := rest.dropWhile isWsChar
      some ([c], ws ++ c :: ws2, rem)
    else if ws ≠ [] then
      some ([ws.getLastD ' '], ws, afterWs)
    else if atStart then
      some ([], [], cs)
    else
      none

/-- Pass 2 (line 78): the `/g` replace loop of the whitespace-collapsing
regex, with the `lastIndex` advance after an empty match. -/
def wsLoop : Nat → List Char → Bool → List Char
  | 0, cs, _ => cs
  | fuel + 1, cs, atStart =>
    match wsMatchAt cs atStart with
    | some (cap, consumed, rem) =>
      if consumed.isEmpty then
        match cs with
        | [] => cap
        | c :: rest => cap ++ c :: wsLoop fuel rest false
      else cap ++ wsLoop fuel rem false
    | none =>
      match cs with
      | [] => []
      | c :: rest => c :: wsLoop fuel rest false

/-- Characters of the class `[\[#.:]` before which an implied `*` is
inserted. -/
def isImplied (c : Char) : Bool :=
  c = '[' ∨ c = '#' ∨ c = '.' ∨ c = ':'

/-- Characters of the class `[\s>+~,]` (first alternative of group 1 of the
implied-universal regex). -/
def isImpliedLead (c : Char) : Bool :=
  isWsChar c ∨ c = '>' ∨ c = '+' ∨ c = '~' ∨ c = ','

/-- Pass 3 (line 79): the `/g` replace loop of
`/([\s>+~,]|[^(]\+|^)([\[#.:])/` with replacement `"$1*$2"`, alternatives in
written order. -/
def starLoop : Nat → List Char → Bool → List Char
  | 0, cs, _ => cs
  | fuel + 1, cs, atStart =>
    match cs with
    | [] => []
    | a :: b :: rest =>
      if isImpliedLead a ∧ isImplied b then
        a :: '*' :: b :: starLoop fuel rest false
      else
        match rest with
        | c :: rest2 =>
          if a ≠ '(' ∧ b = '+' ∧ isImplied c then
            a :: b :: '*' :: c :: starLoop fuel rest2 false
          else if atStart ∧ isImplied a then
            '*' :: a :: starLoop fuel (b :: c :: rest2) false
          else
            a :: starLoop fuel (b :: c :: rest2) false
        | [] =>
          if atStart ∧ isImplied a then '*' :: a :: [b]
          else if isImplied b ∧ False then cs  -- `^` only applies at position 0
          else a :: starLoop fuel [b] false
    | [a] =>
      if atStart ∧ isImplied a then ['*', a] else [a]

/-- The full normalization pipeline of `parseSelector` (lines 75-80): extract
quoted strings, collapse whitespace, insert implied universal selectors, and
split the group on commas.  Returns the string table and the selector texts. -/
def normalizeSelector (selector : String) : List String × List String :=
  let (masked, strings) := extractGo (selector.length + 1) selector.data
  let collapsed := wsLoop (2 * masked.length + 2) masked true
  let starred := starLoop (collapsed.length + 1) collapsed true
  (strings, (splitOnChar ',' starred).map String.mk)

/-! ## Combinator split (selector.js 84-90)

`selector.match(/[ >+~](?![=\d])/g)` and `selector.split(/[ >+~](?![=\d])/)`
scan the same single-character separators (a combinator character not followed
by `=` or a digit), so they are embedded as one scan returning the pieces and
the separators. -/

/-- Is the character at the head of `cs` (when present) one that vetoes a
preceding `~`/`+`/`>`/space being a combinator (the `(?![=\d])` lookahead)? -/
def lookaheadVeto : List Char → Bool
  | [] => false
  | c :: _ => c = '=' ∨ c.isDigit

/-- A combinator character `[ >+~]`. -/
def isCombChar (c : Char) : Bool :=
  c = ' ' ∨ c = '>' ∨ c = '+' ∨ c = '~'

/-- Split on combinator separators, returning the compound-selector pieces and
the separator characters; `acc` accumulates the current piece reversed. -/
def splitCombGo (acc : List Char) : List Char → List String × List Char
  | [] => ([String.mk acc.reverse], [])
  | c :: rest =>
    if isCombChar c ∧ ¬ lookaheadVeto rest then
      let (pieces, seps) := splitCombGo [] rest
      (String.mk acc.reverse :: pieces, c :: seps)
    else
      splitCombGo (c :: acc) rest

/-- `(selector.split(re), selector.match(re) || [])` for the combinator
regex. -/
def splitComb (s : String) : List String × List Char :=
  splitCombGo [] s.data

/-! ## Compound-selector parsing (`parseCompoundSelector`, selector.js 104-154) -/

/-- A word character of `[\w-]` (`\w` is `[A-Za-z0-9_]`). -/
def isWordDash (c : Char) : Bool :=
  c.isAlphanum ∨ c = '_' ∨ c = '-'

/-- Anchored match of the attribute simple-selector regex
`^\[(-?[a-zA-Z_][\w-]*)(?:([~^$*|]?=)['"](.*)['"])?\]$`, returning
`(name, operator-or-empty, value?)`; `none` is the regex's `null`. -/
def parseAttrSimple (s : String) : Option (String × String × Option String) :=
  match s.data with
  | '[' :: rest =>
    if rest.getLast? = some ']' then
      let inner := rest.dropLast
      let (dash, t) := match inner with
        | '-' :: t => (['-'], t)
        | t => (([] : List Char), t)
      match t with
      | c0 :: t1 =>
        if c0.isAlpha ∨ c0 = '_' then
          let nameTail := t1.takeWhile isWordDash
          let afterName := t1.dropWhile isWordDash
          let name := String.mk (dash ++ c0 :: nameTail)
          match afterName with
          | [] => some (name, "", none)
          | _ =>
            -- ([~^$*|]?=)['"](.*)['"]
            let (op, afterOp) := match afterName with
              | o :: '=' :: r =>
                if o = '~' ∨ o = '^' ∨ o = '$' ∨ o = '*' ∨ o = '|' then
                  (some (String.mk [o, '=']), r)
                else if o = '=' then (some "=", '=' :: r)
                else (none, afterName)
              | '=' :: r => (some "=", r)
              | _ => (none, afterName)
            match op, afterOp with
            | some opStr, q1 :: vrest =>
              if (q1 == '\'' || q1 == '"') &&
                  (match vrest.getLast? with
                   | some q2 => q2 == '\'' || q2 == '"'
                   | none => false) then
                some (name, opStr, some (String.mk vrest.dropLast))
              else none
            | _, _ => none
        else none
      | [] => none
    else none
  | _ => none

/-- Does a string fully match the pseudo parameter grammar
`(?:\d*n(?:[+-]\d+)?)|(?:[a-zA-Z]+)`?  Note the first alternative requires a
literal `n` and allows no leading sign, so `-n+3`, `3` and `0` all fail. -/
def pseudoParamOk (p : String) : Bool :=
  let anb :=
    let afterDigits := p.data.dropWhile Char.isDigit
    match afterDigits with
    | 'n' :: rest =>
      match rest with
      | [] => true
      | s :: ds => (s == '+' || s == '-') && !ds.isEmpty && ds.all Char.isDigit
    | _ => false
  anb || (p != "" && p.data.all Char.isAlpha)

/-- Anchored match of the pseudo simple-selector regex
`^:([\w_-]+)(?:\(((?:\d*n(?:[+-]\d+)?)|(?:[a-zA-Z]+))\))?$`, returning
`(name, parameter?)`; `none` is the regex's `null`. -/
def parsePseudoSimple (s : String) : Option (String × Option String) :=
  match s.data with
  | ':' :: rest =>
    let nameChars := rest.takeWhile isWordDash
    let afterName := rest.dropWhile isWordDash
    if nameChars = [] then none
    else
      match afterName with
      | [] => some (String.mk nameChars, none)
      | '(' :: prest =>
        if prest.getLast? = some ')' then
          let param := String.mk prest.dropLast
          if pseudoParamOk param then some (String.mk nameChars, some param)
          else none
        else none
      | _ => none
  | _ => none

/-- `simpleSelector.replace("\0", str)`: a one-character string pattern
replaces only the first occurrence.  (`$`-sequences in the replacement string
are not modeled; no selector evaluated here contains them.) -/
def replaceFirstZero (repl : List Char) : List Char → List Char
  | [] => []
  | c :: rest =>
    if c = '\x00' then repl ++ rest else c :: replaceFirstZero repl rest

/-- `strings.pop()`: remove and return the last element (`undefined` when
empty). -/
def jsPop (strings : List String) : Option String × List String :=
  (strings.getLast?, strings.dropLast)

/-- The running state of `parseCompoundSelector`'s `each` loop. -/
structure CompoundAcc where
  idSelector : String
  attributeSelectors : List AttrSel
  pseudoSelectors : List PseudoSel
  strings : List String

/-- One iteration of the `each(simpleSelectors, ...)` loop (lines 111-146):
restore a placeholder from the shared string table via `pop`, then dispatch on
the leading character.  A failed anchored regex match makes the subsequent
index into `null` throw a `TypeError`. -/
def parseSimpleStep (acc : CompoundAcc) (simpleSelector : String) :
    JsResult CompoundAcc := do
  let (simpleSelector, strings) ←
    if simpleSelector.data.contains '\x00' then
      let (popped, rest) := jsPop acc.strings
      pure (String.mk (replaceFirstZero (jsArgStr popped).data simpleSelector.data), rest)
    else
      pure (simpleSelector, acc.strings)
  let acc := { acc with strings := strings }
  match simpleSelector.data.head? with
  | some '[' =>
    match parseAttrSimple simpleSelector with
    | none => .error (.typeError "Cannot read properties of null (reading 1)")
    | some (name, op, value) =>
      .ok { acc with attributeSelectors :=
              acc.attributeSelectors ++ [⟨name, op, value⟩] }
  | some ':' =>
    match parsePseudoSimple simpleSelector with
    | none => .error (.typeError "Cannot read properties of null (reading 1)")
    | some (name, param) =>
      .ok { acc with pseudoSelectors := acc.pseudoSelectors ++ [⟨name, param⟩] }
  | some '.' =>
    .ok { acc with attributeSelectors :=
            acc.attributeSelectors ++
              [⟨"className", "~=", some (String.mk (simpleSelector.data.drop 1))⟩] }
  | some '#' =>
    .ok { acc with idSelector := String.mk (simpleSelector.data.drop 1) }
  | _ => .ok acc

/-- Fold `parseSimpleStep` over the simple selectors. -/
def parseSimpleList (acc : CompoundAcc) : List String → JsResult CompoundAcc
  | [] => .ok acc
  | s :: rest => do
    let acc ← parseSimpleStep acc s
    parseSimpleList acc rest

/-- Insert a break before each `[`, `:`, `.`, `#`
(`compoundSelector.replace(/([\[:.#])/g, "\n$1")`). -/
def insertBreaks : List Char → List Char
  | [] => []
  | c :: rest =>
    if c = '[' ∨ c = ':' ∨ c = '.' ∨ c = '#' then '\n' :: c :: insertBreaks rest
    else c :: insertBreaks rest

/-- `parseCompoundSelector(compoundSelector, strings)` (lines 104-154): split
into simple-selector tokens, shift the type selector, parse the rest,
threading the shared string table; returns the compound selector and the
depleted table. -/
def parseCompoundSelector (compoundSelector : String) (strings : List String) :
    JsResult (CompoundSel × List String) := do
  let simpleSelectors := (splitOnChar '\n' (insertBreaks compoundSelector.data)).map String.mk
  match simpleSelectors with
  | [] => .error (.typeError "shift on empty")  -- unreachable: split never yields []
  | typeSelector :: rest =>
    let acc ← parseSimpleList ⟨"", [], [], strings⟩ rest
    .ok (⟨typeSelector, acc.idSelector, acc.attributeSelectors,
           acc.pseudoSelectors⟩, acc.strings)

/-! ## `parseSelector` (selector.js 70-96) -/

/-- Parse the compound-selector pieces of one complex selector, threading the
string table left to right. -/
def parseCompoundList (strings : List String) :
    List String → JsResult (List CompoundSel × List String)
  | [] => .ok ([], strings)
  | p :: rest =>
    match parseCompoundSelector p strings with
    | .error e => .error e
    | .ok (c, strings') =>
      match parseCompoundList strings' rest with
      | .error e => .error e
      | .ok (cs, strings'') => .ok (c :: cs, strings'')

/-- Parse each selector text of the group into a `ComplexSel`, threading the
shared string table across the whole group. -/
def parseComplexList (strings : List String) :
    List String → JsResult (List ComplexSel × List String)
  | [] => .ok ([], strings)
  | sel :: rest =>
    match parseCompoundList strings (splitComb sel).1 with
    | .error e => .error e
    | .ok (cs, strings') =>
      match parseComplexList strings' rest with
      | .error e => .error e
      | .ok (others, strings'') =>
        .ok (⟨(splitComb sel).2.map (fun c => String.mk [c]), cs⟩ :: others,
          strings'')

/-- `parseSelector(selector)` (lines 70-96): normalize, then parse each
comma-separated selector. -/
def parseSelector (selector : String) : JsResult (List ComplexSel) :=
  match parseComplexList (normalizeSelector selector).1
      (normalizeSelector selector).2 with
  | .error e => .error e
  | .ok (parsed, _) => .ok parsed

/-! ## Compound matching (selector.js 252-404)

`isMatchedByCompoundSelector` and the pseudo-class table are mutually
recursive through `:not`; the `fuel` parameter bounds that recursion (and the
sibling/ancestor walks) and is ample for every concrete evaluation here. -/

/-- The `each`-with-break over the attribute selectors (lines 387-394):
short-circuits on the first unmatched predicate. -/
def attrSelectorsLoop (d : Doc) (element : Option Nat) :
    List AttrSel → JsResult Bool
  | [] => .ok true
  | a :: rest => do
    let r ← isMatchedByAttributeSelector d element a.operator a.attrName a.value
    if r then attrSelectorsLoop d element rest else .ok false

mutual

/-- `isMatchedByCompoundSelector(element, compoundSelector)` (lines 379-404):
id check, then case-insensitive type check (`*` passes), then the attribute
predicates, then the pseudo predicates, each guarded by the previous result.
A `null` element only throws at the first property actually read, so a
compound selector with no simple selectors and type `*` matches `null`. -/
def isMatchedByCompoundSelector (d : Doc) (element : Option Nat)
    (compoundSelector : CompoundSel) : Nat → JsResult Bool
  | 0 => .error .outOfFuel
  | fuel + 1 => do
    let m ←
      if truthyStr compoundSelector.idSelector then do
        let e ← derefNode element "id"
        pure (decide (compoundSelector.idSelector = d.elemId e))
      else pure true
    let m ←
      if m && !(decide (compoundSelector.typeSelector = "*")) then do
        let e ← derefNode element "nodeName"
        pure (decide (compoundSelector.typeSelector.data.map Char.toLower =
          (d.node e).nodeName.data.map Char.toLower))
      else pure m
    let m ←
      if m then attrSelectorsLoop d element compoundSelector.attributeSelectors
      else pure m
    if m then
      pseudoSelectorsLoop d element compoundSelector.typeSelector
        compoundSelector.pseudoSelectors fuel
    else pure m

/-- The `each`-with-break over the pseudo selectors (lines 395-402), passing
`(element, parameter, typeSelector)` to each table entry. -/
def pseudoSelectorsLoop (d : Doc) (element : Option Nat) (typeSel : String) :
    List PseudoSel → Nat → JsResult Bool
  | [], _ => .ok true
  | _, 0 => .error .outOfFuel
  | p :: rest, fuel + 1 => do
    let r ← isMatchedByPseudoSelector d element p.name p.parameter typeSel fuel
    if r then pseudoSelectorsLoop d element typeSel rest fuel else .ok false

/-- The pseudo-class table `isMatchedByPseudoSelector` (lines 252-355).  Each
entry is a function invoked as `entry(element, parameter, typeSelector)`.  The
`nth-of-type` and `nth-last-of-type` entries declare only
`(element, parameter)` and reference the identifier `tagName`, which is
undeclared in their scope: under the file's `"use strict"` this throws a
`ReferenceError` as soon as the entry runs.  `only-of-type` declares
`(element, tagName)`, so its `tagName` is the (usually absent) parameter and
`tagName.toLowerCase()` throws a `TypeError` (and for a string parameter other
than `"*"` the undeclared `current` throws a `ReferenceError`).  Entries that
consult browser state (location, focus, link history, form state) are outside
the tree model and are marked `unmodeled`; no claim evaluates them.  A name
absent from the table is an invocation of `undefined`, a `TypeError`. -/
def isMatchedByPseudoSelector (d : Doc) (element : Option Nat) (name : String)
    (parameter : Option String) (_typeSel : String) : Nat → JsResult Bool
  | 0 => .error .outOfFuel
  | fuel + 1 =>
    match name with
    | "root" => do
      let e ← derefNode element "nodeName"
      .ok (decide ((d.node e).nodeName.data.map Char.toLower = "html".data))
    | "nth-child" => isNthChild d element parameter false none fuel
    | "nth-last-child" => isNthChild d element parameter true none fuel
    | "nth-of-type" =>
      -- return isNthChild(element, parameter, false, tagName);  -- `tagName` undeclared
      .error (.referenceError "tagName")
    | "nth-last-of-type" =>
      -- return isNthChild(element, parameter, true, tagName);  -- `tagName` undeclared
      .error (.referenceError "tagName")
    | "first-child" => do
      let e ← derefNode element "parentNode"
      let p ← derefNode (d.node e).parent "childNodes"
      let firstChild := ((d.node p).children).find? (fun c => (d.node c).nodeType == 1)
      .ok (decide (firstChild = some e))
    | "last-child" => do
      let e ← derefNode element "parentNode"
      let p ← derefNode (d.node e).parent "childNodes"
      let lastChild :=
        ((d.node p).children).reverse.find? (fun c => (d.node c).nodeType == 1)
      .ok (decide (lastChild = some e))
    | "only-child" => do
      -- the loop body breaks (`return false`) right after the first push, so
      -- `children` holds at most the first element-type child
      let e ← derefNode element "parentNode"
      let p ← derefNode (d.node e).parent "childNodes"
      let firstChild := ((d.node p).children).find? (fun c => (d.node c).nodeType == 1)
      .ok (match firstChild with
           | some c => decide (c = e)
           | none => false)
    | "only-of-type" => do
      -- declared as function(element, tagName): `tagName` is the parameter
      let e ← derefNode element "parentNode"
      let p ← derefNode (d.node e).parent "childNodes"
      let pushed ← onlyOfTypeScan d parameter ((d.node p).children) fuel
      .ok (match pushed with
           | [c] => decide (c = e)
           | _ => false)
    | "empty" => do
      let e ← derefNode element "firstChild"
      .ok ((d.node e).children.isEmpty)
    | "not" =>
      match parameter with
      | none =>
        -- parseCompoundSelector(undefined): undefined.replace throws
        .error (.typeError "Cannot read properties of undefined (reading replace)")
      | some param => do
        -- parseCompoundSelector(parameter) is called without a string table;
        -- the pseudo-parameter grammar cannot contain the placeholder
        -- character, so the table is never consulted: model it as empty
        let (cs, _) ← parseCompoundSelector param []
        let b ← isMatchedByCompoundSelector d element cs fuel
        .ok (!b)
    | "link" => .error (.unmodeled "link")
    | "visited" => .error (.unmodeled "visited")
    | "active" => .error (.unmodeled "active")
    | "hover" => .error (.unmodeled "hover")
    | "focus" => .error (.unmodeled "focus")
    | "target" => .error (.unmodeled "target")
    | "lang" => .error (.unmodeled "lang")
    | "enabled" => .error (.unmodeled "enabled")
    | "disabled" => .error (.unmodeled "disabled")
    | "checked" => .error (.unmodeled "checked")
    | _ => .error (.typeError (name ++ " is not a function"))

/-- The scan of `only-of-type`'s `each` loop (lines 299-305): find the first
element-type child; evaluating the tag condition on it throws unless the
parameter is the string `"*"` (`undefined.toLowerCase()` is a `TypeError`,
the identifier `current` is undeclared). -/
def onlyOfTypeScan (d : Doc) (parameter : Option String) :
    List Nat → Nat → JsResult (List Nat)
  | [], _ => .ok []
  | _, 0 => .error .outOfFuel
  | c :: rest, fuel + 1 =>
    if (d.node c).nodeType == 1 then
      match parameter with
      | none =>
        .error (.typeError "Cannot read properties of undefined (reading toLowerCase)")
      | some "*" => .ok [c]
      | some _ => .error (.referenceError "current")
    else onlyOfTypeScan d parameter rest fuel

end

/-! ## `isDescendantOf` (selector.js 362-371)

Note the walk starts at `descendant.parentNode` and steps to `parentNode`
again before the first comparison, so the direct parent is never compared. -/

/-- The `while ((current = current.parentNode) !== null)` loop. -/
def isDescendantOfLoop (d : Doc) (element : Nat) (current : Option Nat) :
    Nat → JsResult Bool
  | 0 => .error .outOfFuel
  | fuel + 1 => do
    let c ← derefNode current "parentNode"
    match (d.node c).parent with
    | none => .ok false
    | some p =>
      if p = element then .ok true
      else isDescendantOfLoop d element (some p) fuel

/-- `isDescendantOf(descendant, element)`. -/
def isDescendantOf (d : Doc) (descendant element : Nat) (fuel : Nat) :
    JsResult Bool :=
  isDescendantOfLoop d element ((d.node descendant).parent) fuel

/-! ## Complex matching (`isMatchedByComplexSelector`, selector.js 412-458)

The parsed compound selectors are iterated in reverse; `combinators[index]`
selects the traversal.  An index with no combinator (in particular the last
compound selector when the full parsed selector is passed, as `match` does)
hits no `switch` case and leaves both the current node and the match flag
untouched. -/

/-- The `case " "` ancestor walk (lines 418-427): ascend until the document
sentinel (fail) or an ancestor satisfying the compound selector (succeed). -/
def descendantCombStep (d : Doc) (cs : CompoundSel) (current : Option Nat) :
    Nat → JsResult (Option Nat × Bool)
  | 0 => .error .outOfFuel
  | fuel + 1 => do
    let c ← derefNode current "parentNode"
    let p := (d.node c).parent
    if p = some d.docIdx then .ok (p, false)
    else do
      let m ← isMatchedByCompoundSelector d p cs fuel
      if m then .ok (p, true) else descendantCombStep d cs p fuel

/-- The `case ">"` step (lines 428-433). -/
def childCombStep (d : Doc) (cs : CompoundSel) (current : Option Nat)
    (fuel : Nat) : JsResult (Option Nat × Bool) := do
  let c ← derefNode current "parentNode"
  match (d.node c).parent with
  | none => .ok (none, false)
  | some p => do
    let m ← isMatchedByCompoundSelector d (some p) cs fuel
    .ok (some p, m)

/-- The sibling walk shared by `case "+"` (lines 434-441): step to the nearest
preceding element-type sibling, or `null`. -/
def prevElementWalk (d : Doc) (current : Option Nat) :
    Nat → JsResult (Option Nat)
  | 0 => .error .outOfFuel
  | fuel + 1 => do
    let c ← derefNode current "previousSibling"
    match (d.node c).prevSib with
    | none => .ok none
    | some q =>
      if (d.node q).nodeType == 1 then .ok (some q)
      else prevElementWalk d (some q) fuel

/-- The `case "+"` step. -/
def adjacentCombStep (d : Doc) (cs : CompoundSel) (current : Option Nat)
    (fuel : Nat) : JsResult (Option Nat × Bool) := do
  let r ← prevElementWalk d current fuel
  match r with
  | none => .ok (none, false)
  | some q => do
    let m ← isMatchedByCompoundSelector d (some q) cs fuel
    .ok (some q, m)

/-- The `case "~"` loop (lines 442-450).  The `while` guard
`(current = current.previousSibling) !== null && current.nodeType !== 1`
stops at the first element-type preceding sibling; the body's
`if (current.nodeType === 1 && !isMatchedByCompoundSelector(...))` can only
run when `current.nodeType !== 1`, so its short-circuit skips the matcher and
the flag is never cleared there — the check is dead code, mirrored verbatim
below. -/
def tildeWalk (d : Doc) (cs : CompoundSel) (current : Option Nat)
    (isMatched : Bool) : Nat → JsResult (Option Nat × Bool)
  | 0 => .error .outOfFuel
  | fuel + 1 => do
    let c ← derefNode current "previousSibling"
    match (d.node c).prevSib with
    | none => .ok (none, isMatched)
    | some q =>
      if (d.node q).nodeType == 1 then .ok (some q, isMatched)
      else do
        let isMatched' ←
          if (d.node q).nodeType == 1 then do
            let b ← isMatchedByCompoundSelector d (some q) cs fuel
            pure (if !b then false else isMatched)
          else pure isMatched
        tildeWalk d cs (some q) isMatched' fuel

/-- The `case "~"` step: run the loop, then `if (current === null)` clear the
flag. -/
def tildeCombStep (d : Doc) (cs : CompoundSel) (current : Option Nat)
    (fuel : Nat) : JsResult (Option Nat × Bool) := do
  let (cur, m) ← tildeWalk d cs current true fuel
  .ok (cur, if cur = none then false else m)

/-- One iteration of the reversed `each` (lines 416-456): dispatch on
`combinators[index]`; an out-of-range index (`undefined`) matches no case. -/
def complexStep (d : Doc) (sel : ComplexSel) (idx : Nat) (cs : CompoundSel)
    (current : Option Nat) (fuel : Nat) : JsResult (Option Nat × Bool) :=
  match sel.combinators.get? idx with
  | some " " => descendantCombStep d cs current fuel
  | some ">" => childCombStep d cs current fuel
  | some "+" => adjacentCombStep d cs current fuel
  | some "~" => tildeCombStep d cs current fuel
  | _ => .ok (current, true)

/-- The reversed `each` with its break-on-failure. -/
def complexLoop (d : Doc) (sel : ComplexSel) :
    List (Nat × CompoundSel) → Option Nat → Nat → JsResult Bool
  | [], _, _ => .ok true
  | (idx, cs) :: rest, current, fuel => do
    let (cur, m) ← complexStep d sel idx cs current fuel
    if m then complexLoop d sel rest cur fuel else .ok false

/-- `isMatchedByComplexSelector(element, complexSelector)` (lines 412-458). -/
def isMatchedByComplexSelector (d : Doc) (element : Nat) (sel : ComplexSel)
    (fuel : Nat) : JsResult Bool :=
  complexLoop d sel sel.compoundSelectors.enum.reverse (some element) fuel

/-! ## Query engine (`find` and `match`, selector.js 479-579) -/

/-- Pre-order descendants of a node (the traversal order of the host's
`getElementsByTagName`). -/
def descendantsPre (d : Doc) : Nat → Nat → List Nat
  | 0, _ => []
  | fuel + 1, i =>
    (((d.node i).children).map (fun c => c :: descendantsPre d fuel c)).flatten

/-- `context.getElementsByTagName(tag)`: element-type descendants of the
context, in document order, filtered case-insensitively by tag name (`"*"`
matches every element). -/
def getElementsByTagName (d : Doc) (root : Nat) (tag : String) (fuel : Nat) :
    List Nat :=
  (descendantsPre d fuel root).filter (fun c =>
    (d.node c).nodeType == 1 &&
      (decide (tag = "*") ||
        decide (tag.data.map Char.toLower = (d.node c).nodeName.data.map Char.toLower)))

/-- The candidate filter (lines 509-513): keep the tag-name hits that satisfy
the rightmost compound selector. -/
def filterByCompound (d : Doc) (cs : CompoundSel) (fuel : Nat) :
    List Nat → JsResult (List Nat)
  | [] => .ok []
  | e :: rest => do
    let m ← isMatchedByCompoundSelector d (some e) cs fuel
    let others ← filterByCompound d cs fuel rest
    .ok (if m then e :: others else others)

/-- The chain filter (lines 516-526): null out candidates failing the complex
selector, then collect the survivors — net effect, an order-preserving
filter. -/
def filterByComplex (d : Doc) (sel : ComplexSel) (fuel : Nat) :
    List Nat → JsResult (List Nat)
  | [] => .ok []
  | e :: rest => do
    let m ← isMatchedByComplexSelector d e sel fuel
    let others ← filterByComplex d sel fuel rest
    .ok (if m then e :: others else others)

/-- The inner `each(contexts, ...)` of `find` (lines 499-527).  When the
rightmost compound selector carries an id selector, line 503 assigns
`element`, an identifier declared nowhere in scope: under the file's
`"use strict"` this throws a `ReferenceError` before the id lookup is used. -/
def findContextLoop (d : Doc) (lastC : CompoundSel) (restSel : ComplexSel)
    (fuel : Nat) : List Nat → JsResult (List Nat)
  | [] => .ok []
  | ctx :: rest => do
    let kept ←
      if truthyStr lastC.idSelector then
        .error (.referenceError "element")
      else do
        let candidates ←
          filterByCompound d lastC fuel (getElementsByTagName d ctx lastC.typeSelector fuel)
        filterByComplex d restSel fuel candidates
    let others ← findContextLoop d lastC restSel fuel rest
    .ok (kept ++ others)

/-- The outer `each(parsedSelectors, ...)` of `find` (lines 495-528): pop the
rightmost compound selector of each complex selector and process every
context. -/
def findSelectorsLoop (d : Doc) (contexts : List Nat) (fuel : Nat) :
    List ComplexSel → JsResult (List Nat)
  | [] => .ok []
  | ps :: rest =>
    match ps.compoundSelectors.getLast? with
    | none => .error (.typeError "pop of empty compoundSelectors")
    | some lastC => do
      let restSel : ComplexSel := ⟨ps.combinators, ps.compoundSelectors.dropLast⟩
      let here ← findContextLoop d lastC restSel fuel contexts
      let there ← findSelectorsLoop d contexts fuel rest
      .ok (here ++ there)

/-- A `context` argument as `find`/`match` accept it: absent, an element, a
selector string, or an array-like list of nodes. -/
inductive JsContext where
  | undefined
  | elem (i : Nat)
  | str (s : String)
  | list (l : List Nat)
deriving DecidableEq, Repr

mutual

/-- `find(selector, context)` (lines 479-530). -/
def jsFind (d : Doc) (selector : String) (context : JsContext) :
    Nat → JsResult (List Nat)
  | 0 => .error .outOfFuel
  | fuel + 1 => do
    let parsedSelectors ← parseSelector selector
    let contexts ← resolveContexts d context fuel
    findSelectorsLoop d contexts fuel parsedSelectors

/-- The context-resolution ladder shared by `find` (lines 484-492) and `match`
(lines 557-565): an element is its own context list, a string is re-resolved
through `find`, an array-like is used as is, anything else (including a
non-element node) leaves the default `[document]`. -/
def resolveContexts (d : Doc) (context : JsContext) : Nat → JsResult (List Nat)
  | 0 => .error .outOfFuel
  | fuel + 1 =>
    match context with
    | .undefined => .ok [d.docIdx]
    | .elem i => .ok (if (d.node i).nodeType == 1 then [i] else [d.docIdx])
    | .str s => jsFind d s .undefined fuel
    | .list l => .ok l

end

/-- The inner `each(contexts, ...)` of `match` (lines 568-573): the callback
never reads its `context` parameter — it re-evaluates
`isMatchedByComplexSelector(element, parsedSelector)` once per context entry
and breaks on the first success. -/
def matchContextLoop (d : Doc) (element : Nat) (ps : ComplexSel) (fuel : Nat) :
    List Nat → JsResult Bool
  | [] => .ok false
  | _ :: rest =>
    match isMatchedByComplexSelector d element ps fuel with
    | .error e => .error e
    | .ok true => .ok true
    | .ok false => matchContextLoop d element ps fuel rest

/-- The outer `each(parseSelector(selector), ...)` of `match` (lines
567-577). -/
def matchSelectorsLoop (d : Doc) (element : Nat) (contexts : List Nat)
    (fuel : Nat) : List ComplexSel → JsResult Bool
  | [] => .ok false
  | ps :: rest =>
    match matchContextLoop d element ps fuel contexts with
    | .error e => .error e
    | .ok true => .ok true
    | .ok false => matchSelectorsLoop d element contexts fuel rest

/-- `match(element, selector, context)` (lines 554-579).  Note the parsed
selector is passed whole to `isMatchedByComplexSelector`, whose reversed loop
finds no combinator at the last index — the rightmost compound selector is
never tested against the element. -/
def jsMatch (d : Doc) (element : Nat) (selector : String) (context : JsContext)
    (fuel : Nat) : JsResult Bool :=
  match resolveContexts d context fuel with
  | .error e => .error e
  | .ok contexts =>
    match parseSelector selector with
    | .error e => .error e
    | .ok parsed => matchSelectorsLoop d element contexts fuel parsed

/-! ## Concrete fixture documents -/

/-- A fixture document:
`#document → html → body → (div, span, p)`, the three leaves being adjacent
element siblings in that order, none with any attribute. -/
def sampleDoc : Doc := ⟨[
  ⟨9, "#document", [], none, none, none, [1]⟩,
  ⟨1, "html", [], some 0, none, none, [2]⟩,
  ⟨1, "body", [], some 1, none, none, [3, 4, 5]⟩,
  ⟨1, "div", [], some 2, none, some 4, []⟩,
  ⟨1, "span", [], some 2, some 3, some 5, []⟩,
  ⟨1, "p", [], some 2, some 4, none, []⟩], 0⟩

/-- A fixture document with five adjacent `div` element siblings under
`body` (table indices 3..7, 1-based sibling positions 1..5). -/
def fiveSiblingsDoc : Doc := ⟨[
  ⟨9, "#document", [], none, none, none, [1]⟩,
  ⟨1, "html", [], some 0, none, none, [2]⟩,
  ⟨1, "body", [], some 1, none, none, [3, 4, 5, 6, 7]⟩,
  ⟨1, "div", [], some 2, none, some 4, []⟩,
  ⟨1, "div", [], some 2, some 3, some 5, []⟩,
  ⟨1, "div", [], some 2, some 4, some 6, []⟩,
  ⟨1, "div", [], some 2, some 5, some 7, []⟩,
  ⟨1, "div", [], some 2, some 6, none, []⟩], 0⟩

/-! ## Claim theorems -/

/-- C1: the `~` combinator step does not test the compound selector at all.
In `sampleDoc`, the `p` element's preceding element siblings are `span` and
`div`; neither satisfies the compound selector `a`, yet `find("a~p")` returns
the `p` element (index 5): the `while` guard stops at the first element-type
sibling and the matcher call in the loop body is dead code, so the step
succeeds whenever any preceding element sibling exists.  The claim's
"succeeds iff some preceding sibling satisfies the compound selector" is
refuted in the only-if direction. -/
theorem C1_tilde_ignores_compound :
    isMatchedByCompoundSelector sampleDoc (some 4) ⟨"a", "", [], []⟩ 99 = .ok false ∧
    isMatchedByCompoundSelector sampleDoc (some 3) ⟨"a", "", [], []⟩ 99 = .ok false ∧
    jsFind sampleDoc "a~p" .undefined 99 = .ok [5] :=
  ⟨rfl, rfl, rfl⟩

/-- C2: `find` and `match` disagree.  `find("div")` on `sampleDoc` returns
exactly the `div` element (index 3); the `span` element (index 4) is inside
the default context and outside the result, yet `match(span, "div")` returns
`true`, because `match` hands the whole parsed selector to
`isMatchedByComplexSelector`, whose reversed loop finds no combinator at the
rightmost index and so never tests the rightmost compound selector. -/
theorem C2_find_match_disagree :
    jsFind sampleDoc "div" .undefined 99 = .ok [3] ∧
    jsMatch sampleDoc 4 "div" .undefined 99 = .ok true :=
  ⟨rfl, rfl⟩

/-- C3: the compound matcher is not total on parser-accepted selectors.
`:nth-of-type(2n)` is accepted by the parser, but evaluating the compound
matcher on it throws: the `nth-of-type` table entry references the undeclared
identifier `tagName` (the intended third parameter that the caller does pass
but the function never declares), a strict-mode `ReferenceError`. -/
theorem C3_nth_of_type_throws :
    parseSelector ":nth-of-type(2n)" =
      .ok [⟨[], [⟨"*", "", [], [⟨"nth-of-type", some "2n"⟩]⟩]⟩] ∧
    isMatchedByCompoundSelector sampleDoc (some 3)
      ⟨"*", "", [], [⟨"nth-of-type", some "2n"⟩]⟩ 99 =
      .error (.referenceError "tagName") :=
  ⟨rfl, rfl⟩

/-- C4: the An+B evaluation deviates from the claimed semantics.  Among the
five element siblings of `fiveSiblingsDoc` (positions 1..5): `-n+3` matches
no position (its `parseInt("-")` is `NaN`, and `:nth-child(-n+3)` is not even
accepted by the pseudo-parameter grammar), where the claim requires positions
1, 2, 3; and `2n+5` matches position 1 (`(1-5) % 2` is `-0`, and `-0 === 0`),
where the claim's non-negative-multiple condition excludes it.  The `2n+1`
and `odd` examples do hold. -/
theorem C4_anb_deviates :
    ([3, 4, 5, 6, 7].map
      (fun i => isNthChild fiveSiblingsDoc (some i) (some "-n+3") false none 99)) =
      [.ok false, .ok false, .ok false, .ok false, .ok false] ∧
    isNthChild fiveSiblingsDoc (some 3) (some "2n+5") false none 99 = .ok true ∧
    parseSelector ":nth-child(-n+3)" =
      .error (.typeError "Cannot read properties of null (reading 1)") ∧
    ([3, 4, 5, 6, 7].map
      (fun i => isNthChild fiveSiblingsDoc (some i) (some "2n+1") false none 99)) =
      [.ok true, .ok false, .ok true, .ok false, .ok true] ∧
    ([3, 4, 5, 6, 7].map
      (fun i => isNthChild fiveSiblingsDoc (some i) (some "odd") false none 99)) =
      [.ok true, .ok false, .ok true, .ok false, .ok true] :=
  ⟨rfl, rfl, rfl, rfl, rfl⟩

/-- C5: with two quoted strings the placeholder restoration pairs values with
the wrong literals.  Parsing `[a="x"][b="y"]` yields attribute selectors
`a="y"` and `b="x"`: placeholders are consumed left to right but the string
table is consumed by `pop`, i.e. right to left, so the values are swapped. -/
theorem C5_string_table_swapped :
    parseSelector "[a=\"x\"][b=\"y\"]" =
      .ok [⟨[], [⟨"*", "", [⟨"a", "=", some "y"⟩, ⟨"b", "=", some "x"⟩], []⟩]⟩] :=
  rfl

/-- C6: attribute predicates on an absent attribute.  The `span` element of
`sampleDoc` has no `foo` property, so `element["foo"]` is `undefined`; the
presence predicate returns `true` (because `undefined !== null`), and the
`^=`, `$=`, `*=`, `|=` predicates throw a `TypeError` when they invoke a
string method on `undefined` — the claim's "non-match and never throws" holds
only for `=` and `~=`. -/
theorem C6_absent_attribute :
    isMatchedByAttributeSelector sampleDoc (some 4) "" "foo" none = .ok true ∧
    isMatchedByAttributeSelector sampleDoc (some 4) "^=" "foo" (some "x") =
      .error (.typeError "Cannot read properties of undefined (reading indexOf)") ∧
    isMatchedByAttributeSelector sampleDoc (some 4) "$=" "foo" (some "x") =
      .error (.typeError "Cannot read properties of undefined (reading substring)") ∧
    isMatchedByAttributeSelector sampleDoc (some 4) "*=" "foo" (some "x") =
      .error (.typeError "Cannot read properties of undefined (reading indexOf)") ∧
    isMatchedByAttributeSelector sampleDoc (some 4) "|=" "foo" (some "x") =
      .error (.typeError "Cannot read properties of undefined (reading indexOf)") ∧
    isMatchedByAttributeSelector sampleDoc (some 4) "=" "foo" (some "x") = .ok false ∧
    isMatchedByAttributeSelector sampleDoc (some 4) "~=" "foo" (some "x") = .ok false :=
  ⟨rfl, rfl, rfl, rfl, rfl, rfl, rfl⟩

/-- C7 counterexample: `find("[bad")` does not raise a `ParseError` carrying
the offending fragment; the error that surfaces is the host-language
`TypeError` from indexing the `null` result of the failed attribute-grammar
regex match. -/
theorem C7_counterexample :
    jsFind sampleDoc "[bad" .undefined 99 ≠ .error (.parseError "[bad") ∧
    jsFind sampleDoc "[bad" .undefined 99 =
      .error (.typeError "Cannot read properties of null (reading 1)") :=
  have h0 : jsFind sampleDoc "[bad" .undefined 99 =
      .error (.typeError "Cannot read properties of null (reading 1)") := rfl
  ⟨fun h => JsError.noConfusion (Except.error.inj (h0.symm.trans h)), h0⟩

/-- C7 amended: `find("[bad")` fails synchronously with an error raised from
the parser (already `parseSelector` alone fails with the same `TypeError`),
before any matching begins, and returns no node list — but the error is a
generic host `TypeError`, not a `ParseError` object carrying the fragment. -/
theorem C7_amended_find_fails_fast :
    parseSelector "[bad" =
      .error (.typeError "Cannot read properties of null (reading 1)") ∧
    jsFind sampleDoc "[bad" .undefined 99 =
      .error (.typeError "Cannot read properties of null (reading 1)") :=
  ⟨rfl, rfl⟩

/-- C8: the id fast path of `find` throws, and even its descendant check
rejects direct children.  With the `body` element (index 2) as context,
`find("#x")` hits line 503's assignment to the undeclared identifier
`element` — a strict-mode `ReferenceError` — so no id lookup ever completes;
moreover `isDescendantOf` starts comparing at the grandparent, so for the
`div` (index 3), a direct child of `body`, it returns `false` while the same
`div` under the `html` grandparent (index 1) yields `true`. -/
theorem C8_id_fast_path_broken :
    jsFind sampleDoc "#x" (.elem 2) 99 = .error (.referenceError "element") ∧
    (sampleDoc.node 3).parent = some 2 ∧
    isDescendantOf sampleDoc 3 2 99 = .ok false ∧
    isDescendantOf sampleDoc 3 1 99 = .ok true :=
  ⟨rfl, rfl, rfl, rfl⟩

/-- The combinator split always yields one more piece than separators: a
fresh piece is opened exactly at each separator. -/
theorem splitCombGo_length (cs : List Char) :
    ∀ acc, (splitCombGo acc cs).1.length = (splitCombGo acc cs).2.length + 1 := by
  induction cs with
  | nil => intro acc; simp [splitCombGo]
  | cons c rest ih =>
    intro acc
    simp only [splitCombGo]
    by_cases h : isCombChar c ∧ ¬ lookaheadVeto rest
    · simp only [if_pos h]
      have := ih ([] : List Char)
      cases hs : splitCombGo [] rest with
      | mk pieces seps => simp_all
    · simp only [if_neg h]
      exact ih (c :: acc)

/-- `parseCompoundList` produces exactly one compound selector per piece. -/
theorem parseCompoundList_length :
    ∀ (pieces : List String) (strings cs : List _) (strings' : List String),
      parseCompoundList strings pieces = .ok (cs, strings') →
      cs.length = pieces.length := by
  intro pieces
  induction pieces with
  | nil =>
    intro strings cs s' h
    simp only [parseCompoundList] at h
    cases h
    rfl
  | cons p rest ih =>
    intro strings cs s' h
    simp only [parseCompoundList] at h
    split at h
    · simp at h
    · split at h
      · simp at h
      · rename_i heqr
        simp only [Except.ok.injEq, Prod.mk.injEq] at h
        obtain ⟨h1, _⟩ := h
        subst h1
        simp [ih _ _ _ heqr]

/-- Every complex selector produced by `parseComplexList` satisfies the
length invariant. -/
theorem parseComplexList_inv :
    ∀ (sels : List String) (strings : List String) (l : List ComplexSel)
      (strings' : List String),
      parseComplexList strings sels = .ok (l, strings') →
      ∀ ps ∈ l, ps.compoundSelectors.length = ps.combinators.length + 1 := by
  intro sels
  induction sels with
  | nil =>
    intro strings l s' h ps hps
    simp only [parseComplexList] at h
    cases h
    simp at hps
  | cons sel rest ih =>
    intro strings l s' h ps hps
    simp only [parseComplexList] at h
    split at h
    · simp at h
    · rename_i cs strings1 heqc
      split at h
      · simp at h
      · rename_i others strings2 heqr
        simp only [Except.ok.injEq, Prod.mk.injEq] at h
        obtain ⟨h1, _⟩ := h
        subst h1
        cases hps with
        | head =>
          have hlen := parseCompoundList_length (splitComb sel).1 strings cs strings1 heqc
          have hsplit := splitCombGo_length sel.data ([] : List Char)
          simp only [splitComb] at hlen hsplit ⊢
          simp only [List.length_map]
          omega
        | tail _ hmem => exact ih strings1 others strings2 heqr ps hmem

/-- C9: for every input string, every complex selector produced by
`parseSelector` satisfies `compoundSelectors.length = combinators.length + 1`
(`combinators[i]` sits between `compoundSelectors[i]` and
`compoundSelectors[i+1]` by construction of the shared separator scan, and
the matcher consumes the structure right to left, anchoring the rightmost
compound selector on the candidate node during `find`'s candidate
generation). -/
theorem C9_parse_invariant (s : String) (l : List ComplexSel)
    (h : parseSelector s = .ok l) :
    ∀ ps ∈ l, ps.compoundSelectors.length = ps.combinators.length + 1 := by
  intro ps hps
  simp only [parseSelector] at h
  split at h
  · simp at h
  · rename_i parsed strings' heq
    simp only [Except.ok.injEq] at h
    subst h
    exact parseComplexList_inv (normalizeSelector s).2 (normalizeSelector s).1
      parsed strings' heq ps hps

/-- C9 witness: the invariant instantiated on the parse of `"div p"`. -/
theorem C9_parse_invariant_witness :
    (⟨[" "], [⟨"div", "", [], []⟩, ⟨"p", "", [], []⟩]⟩ :
      ComplexSel).compoundSelectors.length =
    (⟨[" "], [⟨"div", "", [], []⟩, ⟨"p", "", [], []⟩]⟩ :
      ComplexSel).combinators.length + 1 :=
  C9_parse_invariant "div p"
    [⟨[" "], [⟨"div", "", [], []⟩, ⟨"p", "", [], []⟩]⟩] rfl
    ⟨[" "], [⟨"div", "", [], []⟩, ⟨"p", "", [], []⟩]⟩ (by simp)

/-- The inner context loop of `match` never reads the context entries: on any
nonempty context list it returns exactly the complex-selector evaluation. -/
theorem matchContextLoop_nonempty (d : Doc) (e : Nat) (ps : ComplexSel)
    (fuel : Nat) :
    ∀ (l : List Nat), l ≠ [] →
      matchContextLoop d e ps fuel l = isMatchedByComplexSelector d e ps fuel := by
  intro l
  induction l with
  | nil => intro h; exact absurd rfl h
  | cons x rest ih =>
    intro _
    simp only [matchContextLoop]
    cases hm : isMatchedByComplexSelector d e ps fuel with
    | error err => rfl
    | ok b =>
      cases b with
      | true => rfl
      | false =>
        by_cases hr : rest = []
        · subst hr; simp [matchContextLoop, hm]
        · simp [ih hr, hm]

/-- The selector loop of `match` gives the same result over any two nonempty
context lists. -/
theorem matchSelectorsLoop_ctx (d : Doc) (e : Nat) (fuel : Nat)
    (l1 l2 : List Nat) (h1 : l1 ≠ []) (h2 : l2 ≠ []) :
    ∀ pss, matchSelectorsLoop d e l1 fuel pss = matchSelectorsLoop d e l2 fuel pss := by
  intro pss
  induction pss with
  | nil => rfl
  | cons ps rest ih =>
    simp only [matchSelectorsLoop]
    rw [matchContextLoop_nonempty d e ps fuel l1 h1,
        matchContextLoop_nonempty d e ps fuel l2 h2]
    cases hm : isMatchedByComplexSelector d e ps fuel with
    | error err => rfl
    | ok b => cases b <;> simp [ih]

/-- C10 amended: `match`'s result never depends on which nodes the context
argument resolves to — any two contexts resolving to nonempty lists give the
same boolean (the per-context callback ignores its context parameter) — but a
context resolving to the empty list short-circuits `match` to `false`, so the
claim's unconditional context-independence fails (see the counterexample). -/
theorem C10_amended_context_irrelevant (d : Doc) (e : Nat) (s : String)
    (c1 c2 : JsContext) (l1 l2 : List Nat) (fuel : Nat)
    (h1 : resolveContexts d c1 fuel = .ok l1)
    (h2 : resolveContexts d c2 fuel = .ok l2)
    (n1 : l1 ≠ []) (n2 : l2 ≠ []) :
    jsMatch d e s c1 fuel = jsMatch d e s c2 fuel := by
  simp only [jsMatch]
  rw [h1, h2]
  cases hp : parseSelector s with
  | error err => rfl
  | ok pss => exact matchSelectorsLoop_ctx d e fuel l1 l2 n1 n2 pss

/-- C10 amended witness: the default context and the `body` element as
context agree on `match(span, "*")`. -/
theorem C10_amended_witness :
    jsMatch sampleDoc 4 "*" .undefined 99 = jsMatch sampleDoc 4 "*" (.elem 2) 99 :=
  C10_amended_context_irrelevant sampleDoc 4 "*" .undefined (.elem 2) [0] [2] 99
    rfl rfl (by simp) (by simp)

/-- C10 counterexample: `match` is not independent of the context argument.
For the `span` element of `sampleDoc` and the selector `*`, an absent context
yields `true` while the empty node list as context yields `false`: the
context entries are never consulted, but an empty resolved context list skips
the matching loop entirely. -/
theorem C10_counterexample :
    jsMatch sampleDoc 4 "*" .undefined 99 = .ok true ∧
    jsMatch sampleDoc 4 "*" (.list []) 99 = .ok false :=
  ⟨rfl, rfl⟩

end Selector
